import Mathlib

/-!
Verification of the structured-logging shim in
`src/experiments/motia/src/python/logger.py`.

The shim builds a flat log record (five base fields plus optional merged
extra fields) and hands it to an injected sender through a single
fire-and-forget `send_no_wait("log", entry)` call.

Embedding choices:
* `PyVal` models the dynamic values a caller can pass as the optional
  `args` argument: `None`, booleans, integers, strings, lists,
  string-keyed dictionaries, and attribute-bearing objects (anything with
  a `__dict__`).
* Dictionaries are association lists of string keys; `dictSet` and
  `dictUpdate` model `dict.update` (overwrite value in place for an
  existing key, append new keys) for the unique-key dictionaries Python
  produces.
* The sender (`RpcSender`) is modelled as the trace of calls made on it;
  `send_no_wait` appends one `RpcCall`. Mutation of `self.rpc` becomes
  explicit state passing: each severity method returns the updated logger.
* The one operation in `_log` that raises on unexpected input,
  `dict.update` applied to a non-mapping, is modelled by `pyUpdate`
  returning `Except`; `_log` therefore returns `Except String Logger`,
  making "no error branch is reachable" a provable statement.
* The wall clock read `int(time.time() * 1000)` is modelled by an explicit
  `now : Int` argument captured at the point of the call.
-/

/-- A dynamic (Python-style) value passed as the optional extra argument. -/
inductive PyVal where
  | none : PyVal
  | bool (b : Bool) : PyVal
  | int (n : Int) : PyVal
  | str (s : String) : PyVal
  | list (xs : List PyVal) : PyVal
  | dict (entries : List (String × PyVal)) : PyVal
  | obj (attrs : List (String × PyVal)) : PyVal

/-- Python truthiness (`if args:`): `None`, `False`, `0`, `""`, `[]` and
`{}` are falsy; a plain object is always truthy. -/
def truthy : PyVal → Bool
  | PyVal.none => false
  | PyVal.bool b => b
  | PyVal.int n => n != 0
  | PyVal.str s => s != ""
  | PyVal.list xs => !xs.isEmpty
  | PyVal.dict es => !es.isEmpty
  | PyVal.obj _ => true

/-- `hasattr(v, "__dict__")`: only attribute-bearing objects have one. -/
def PyVal.hasDictAttr : PyVal → Bool
  | PyVal.obj _ => true
  | _ => false

/-- `isinstance(v, dict)`. -/
def PyVal.isDict : PyVal → Bool
  | PyVal.dict _ => true
  | _ => false

/-- `vars(v)`: the attribute dictionary of an object (only applied under a
`hasDictAttr` guard). -/
def PyVal.vars : PyVal → List (String × PyVal)
  | PyVal.obj attrs => attrs
  | _ => []

/-- Store one key in a dictionary: overwrite the value in place when the
key is present, append otherwise (Python dict assignment). -/
def dictSet : List (String × PyVal) → String → PyVal → List (String × PyVal)
  | [], k, v => [(k, v)]
  | (a, b) :: rest, k, v =>
    if a == k then (k, v) :: rest else (a, b) :: dictSet rest k v

/-- `d.update(es)`: store every entry of `es` into `d`, left to right. -/
def dictUpdate : List (String × PyVal) → List (String × PyVal) → List (String × PyVal)
  | d, [] => d
  | d, (k, v) :: rest => dictUpdate (dictSet d k v) rest

/-- `d.update(v)` for a dynamic argument: raises `TypeError` unless the
argument is a mapping. -/
def pyUpdate (d : List (String × PyVal)) : PyVal → Except String (List (String × PyVal))
  | PyVal.dict es => Except.ok (dictUpdate d es)
  | _ => Except.error "TypeError"

/-- One call made on the sender: an event name and a payload mapping. -/
structure RpcCall where
  event : String
  payload : List (String × PyVal)

/-- The injected sender, modelled by the trace of calls made on it. -/
structure RpcSender where
  sent : List RpcCall

/-- `rpc.send_no_wait(event, payload)`: records exactly one call. -/
def RpcSender.send_no_wait (r : RpcSender) (event : String)
    (payload : List (String × PyVal)) : RpcSender :=
  RpcSender.mk (r.sent ++ [RpcCall.mk event payload])

/-- The `Logger` instance: `trace_id`, `flows` and the sender reference,
exactly the three fields `__init__` stores. -/
structure Logger where
  trace_id : String
  flows : List String
  rpc : RpcSender

/-- The base record built by lines 12-18 of `_log`:
`{"level": level, "time": <clock>, "traceId": self.trace_id,
"flows": self.flows, "msg": message}`. -/
def Logger.baseEntry (l : Logger) (level : String) (now : Int)
    (message : String) : List (String × PyVal) :=
  [("level", PyVal.str level),
   ("time", PyVal.int now),
   ("traceId", PyVal.str l.trace_id),
   ("flows", PyVal.list (l.flows.map PyVal.str)),
   ("msg", PyVal.str message)]

/-- `Logger._log(level, message, args)`: build the base record, normalize
and merge a truthy `args`, dispatch once via `send_no_wait("log", entry)`.
`now` is the millisecond clock value read at the start of the call. -/
def Logger._log (l : Logger) (now : Int) (level : String) (message : String)
    (args : PyVal) : Except String Logger :=
  let log_entry := l.baseEntry level now message
  let merged : Except String (List (String × PyVal)) :=
    if truthy args then
      if args.hasDictAttr then
        pyUpdate log_entry (PyVal.dict args.vars)
      else if !args.isDict then
        pyUpdate log_entry (PyVal.dict [("data", args)])
      else
        pyUpdate log_entry args
    else
      Except.ok log_entry
  match merged with
  | Except.ok entry => Except.ok { l with rpc := l.rpc.send_no_wait "log" entry }
  | Except.error e => Except.error e

/-- `logger.info(message, args)`. -/
def Logger.info (l : Logger) (now : Int) (message : String)
    (args : PyVal := PyVal.none) : Except String Logger :=
  l._log now "info" message args

/-- `logger.error(message, args)`. -/
def Logger.error (l : Logger) (now : Int) (message : String)
    (args : PyVal := PyVal.none) : Except String Logger :=
  l._log now "error" message args

/-- `logger.debug(message, args)`. -/
def Logger.debug (l : Logger) (now : Int) (message : String)
    (args : PyVal := PyVal.none) : Except String Logger :=
  l._log now "debug" message args

/-- `logger.warn(message, args)`. -/
def Logger.warn (l : Logger) (now : Int) (message : String)
    (args : PyVal := PyVal.none) : Except String Logger :=
  l._log now "warn" message args

/-- The four public severity methods, as a type, so that properties can
quantify over "any of the four severity methods". -/
inductive Severity where
  | info
  | error
  | debug
  | warn
deriving DecidableEq

/-- The name of each public method, which is also the level tag it passes
to `_log`. -/
def Severity.methodName : Severity → String
  | Severity.info => "info"
  | Severity.error => "error"
  | Severity.debug => "debug"
  | Severity.warn => "warn"

/-- Invoke the severity method selected by `s`. -/
def Logger.callSeverity (l : Logger) (s : Severity) (now : Int)
    (message : String) (args : PyVal) : Except String Logger :=
  match s with
  | Severity.info => l.info now message args
  | Severity.error => l.error now message args
  | Severity.debug => l.debug now message args
  | Severity.warn => l.warn now message args

/-- Whether the normalized form of the extra argument supplies the key
`k`: a truthy dictionary or object supplies its own keys, a truthy
non-mapping supplies only `"data"`, a falsy extra supplies nothing. -/
def extraHasKey (args : PyVal) (k : String) : Bool :=
  match args with
  | PyVal.obj attrs => attrs.any (fun p => p.1 == k)
  | PyVal.dict es => es.any (fun p => p.1 == k)
  | a => truthy a && (k == "data")

/-- The entries of a mapping value (the dictionary itself for a `dict`). -/
def PyVal.dictEntries : PyVal → List (String × PyVal)
  | PyVal.dict es => es
  | _ => []

/-- The normalization step of `_log` (lines 22-25): an attribute-bearing
object contributes `vars(args)`, a mapping contributes itself, anything
else is wrapped as `{"data": args}`. -/
def normEntries (a : PyVal) : List (String × PyVal) :=
  if a.hasDictAttr then a.vars
  else if !a.isDict then [("data", a)]
  else a.dictEntries

/-- Payloads dispatched in a (possibly failed) logger run. -/
def sentPayloads : Except String Logger → List (List (String × PyVal))
  | Except.ok l => l.rpc.sent.map RpcCall.payload
  | Except.error _ => []

/-! ### Dictionary lemmas -/

lemma lookup_dictSet_self (d : List (String × PyVal)) (k : String) (v : PyVal) :
    (dictSet d k v).lookup k = some v := by
  induction d with
  | nil => simp [dictSet]
  | cons p rest ih =>
    obtain ⟨a, b⟩ := p
    by_cases h : a = k
    · simp [dictSet, h]
    · have hk : (k == a) = false := beq_false_of_ne (Ne.symm h)
      simp [dictSet, h, List.lookup_cons, hk, ih]

lemma lookup_dictSet_ne (d : List (String × PyVal)) (a k : String) (v : PyVal)
    (h : a ≠ k) : (dictSet d a v).lookup k = d.lookup k := by
  have hk : (k == a) = false := beq_false_of_ne (Ne.symm h)
  induction d with
  | nil => simp [dictSet, List.lookup_cons, hk]
  | cons p rest ih =>
    obtain ⟨c, b⟩ := p
    by_cases hc : c = a
    · subst hc
      simp [dictSet, List.lookup_cons, hk]
    · have hca : (c == a) = false := beq_false_of_ne hc
      by_cases hkc : k = c
      · subst hkc
        simp [dictSet, hca, List.lookup_cons]
      · have hkc2 : (k == c) = false := beq_false_of_ne hkc
        simp [dictSet, hca, List.lookup_cons, hkc2, ih]

lemma lookup_dictUpdate_not_has (d es : List (String × PyVal)) (k : String)
    (h : es.any (fun p => p.1 == k) = false) :
    (dictUpdate d es).lookup k = d.lookup k := by
  induction es generalizing d with
  | nil => rfl
  | cons p rest ih =>
    obtain ⟨a, b⟩ := p
    simp only [List.any_cons, Bool.or_eq_false_iff, beq_eq_false_iff_ne] at h
    simp only [dictUpdate]
    rw [ih _ h.2, lookup_dictSet_ne _ _ _ _ h.1]

lemma lookup_isSome_mem_keys (es : List (String × PyVal)) (k : String) (v : PyVal)
    (h : es.lookup k = some v) : k ∈ es.map Prod.fst := by
  induction es with
  | nil => simp at h
  | cons p rest ih =>
    obtain ⟨a, b⟩ := p
    by_cases ha : k = a
    · simp [ha]
    · have hka : (k == a) = false := beq_false_of_ne ha
      simp only [List.lookup_cons, hka] at h
      simp [ih h]

lemma lookup_dictUpdate_nodup (d es : List (String × PyVal)) (k : String) (v : PyVal)
    (hnd : (es.map Prod.fst).Nodup) (hv : es.lookup k = some v) :
    (dictUpdate d es).lookup k = some v := by
  induction es generalizing d with
  | nil => simp at hv
  | cons p rest ih =>
    obtain ⟨a, b⟩ := p
    simp only [List.map_cons, List.nodup_cons] at hnd
    by_cases ha : k = a
    · subst ha
      simp only [List.lookup_cons_self] at hv
      have hrest : rest.any (fun p => p.1 == k) = false := by
        rcases hany : rest.any (fun p => p.1 == k) with _ | _
        · rfl
        · exfalso
          simp only [List.any_eq_true, beq_iff_eq] at hany
          obtain ⟨q, hq, hqk⟩ := hany
          exact hnd.1 (hqk ▸ List.mem_map_of_mem Prod.fst hq)
      simp only [dictUpdate]
      rw [lookup_dictUpdate_not_has _ _ _ hrest, lookup_dictSet_self]
      exact hv
    · have hka : (k == a) = false := beq_false_of_ne ha
      simp only [List.lookup_cons, hka] at hv
      simp only [dictUpdate]
      exact ih (dictSet d a b) hnd.2 hv

/-! ### Normal form of the logging routine -/

lemma callSeverity_eq_log (l : Logger) (s : Severity) (now : Int)
    (message : String) (args : PyVal) :
    Logger.callSeverity l s now message args =
      Logger._log l now s.methodName message args := by
  cases s <;> rfl

lemma log_eq (l : Logger) (now : Int) (level message : String) (args : PyVal) :
    Logger._log l now level message args =
      Except.ok (Logger.mk l.trace_id l.flows (RpcSender.mk (l.rpc.sent ++
        [RpcCall.mk "log"
          (if truthy args then
            dictUpdate (l.baseEntry level now message) (normEntries args)
           else l.baseEntry level now message)]))) := by
  cases args <;>
    simp [Logger._log, normEntries, pyUpdate, PyVal.hasDictAttr, PyVal.isDict,
      PyVal.vars, PyVal.dictEntries, truthy, RpcSender.send_no_wait] <;>
    (try (simp only [← apply_ite Except.ok]))

lemma normEntries_not_has (a : PyVal) (k : String)
    (ht : truthy a = true) (h : extraHasKey a k = false) :
    (normEntries a).any (fun p => p.1 == k) = false := by
  cases a <;>
    simp_all [normEntries, extraHasKey, truthy, PyVal.hasDictAttr,
      PyVal.isDict, PyVal.vars, PyVal.dictEntries, beq_eq_false_iff_ne,
      Ne.symm] <;>
    assumption

lemma lookup_merged_entry (l : Logger) (now : Int) (level message : String)
    (args : PyVal) (k : String) (h : extraHasKey args k = false) :
    (if truthy args then
      dictUpdate (l.baseEntry level now message) (normEntries args)
     else l.baseEntry level now message).lookup k =
      (l.baseEntry level now message).lookup k := by
  rcases ht : truthy args with _ | _
  · simp [ht]
  · simp only [ht, if_true]
    exact lookup_dictUpdate_not_has _ _ _ (normEntries_not_has args k ht h)

/-! ### Lookups in the base record -/

lemma baseEntry_lookup_level (l : Logger) (level : String) (now : Int)
    (message : String) :
    (l.baseEntry level now message).lookup "level" = some (PyVal.str level) := rfl

lemma baseEntry_lookup_time (l : Logger) (level : String) (now : Int)
    (message : String) :
    (l.baseEntry level now message).lookup "time" = some (PyVal.int now) := rfl

lemma baseEntry_lookup_traceId (l : Logger) (level : String) (now : Int)
    (message : String) :
    (l.baseEntry level now message).lookup "traceId" =
      some (PyVal.str l.trace_id) := rfl

lemma baseEntry_lookup_flows (l : Logger) (level : String) (now : Int)
    (message : String) :
    (l.baseEntry level now message).lookup "flows" =
      some (PyVal.list (l.flows.map PyVal.str)) := rfl

lemma baseEntry_lookup_msg (l : Logger) (level : String) (now : Int)
    (message : String) :
    (l.baseEntry level now message).lookup "msg" = some (PyVal.str message) := rfl

/-- `normEntries` of a mapping is the mapping itself. -/
lemma normEntries_dict (es : List (String × PyVal)) :
    normEntries (PyVal.dict es) = es := rfl

/-- Merging the single-entry wrap into the base record appends it, since
no base field is named "data". -/
lemma dictUpdate_baseEntry_data (l : Logger) (level : String) (now : Int)
    (message : String) (v : PyVal) :
    dictUpdate (l.baseEntry level now message) [("data", v)] =
      l.baseEntry level now message ++ [("data", v)] := rfl

/-! ### Claims -/

/-- C3: every single call to any of the four severity methods makes
exactly one `send_no_wait` call, with event name `"log"`, on the injected
sender, and has no other observable effect: the logger's `trace_id` and
`flows` fields are unchanged and the sender's trace grows by exactly that
one call. -/
theorem log_single_dispatch (l : Logger) (s : Severity) (now : Int)
    (message : String) (args : PyVal) :
    ∃ entry, Logger.callSeverity l s now message args =
      Except.ok (Logger.mk l.trace_id l.flows
        (RpcSender.mk (l.rpc.sent ++ [RpcCall.mk "log" entry]))) := by
  rw [callSeverity_eq_log, log_eq]
  exact ⟨_, rfl⟩

/-- C7: assuming the sender's `send_no_wait` does not raise, a severity
call never fails visibly to its caller: for every message and every shape
of the extra argument the call returns normally, and the `TypeError`
branch of the modelled `dict.update` is unreachable. -/
theorem log_never_fails (l : Logger) (s : Severity) (now : Int)
    (message : String) (args : PyVal) :
    (Logger.callSeverity l s now message args).isOk = true := by
  rw [callSeverity_eq_log, log_eq]
  rfl

/-- C8: construction never fails and stores the trace id, the flows
sequence and the sender verbatim, with no validation: each field of the
constructed logger equals the corresponding argument, for all arguments,
including an empty trace id and an empty flows list. -/
theorem init_stores_verbatim (trace_id : String) (flows : List String)
    (rpc : RpcSender) :
    (Logger.mk trace_id flows rpc).trace_id = trace_id ∧
    (Logger.mk trace_id flows rpc).flows = flows ∧
    (Logger.mk trace_id flows rpc).rpc = rpc :=
  ⟨rfl, rfl, rfl⟩

/-- C5: with no extra argument (the Python default `None`) or an empty
mapping, the dispatched payload is exactly the five base fields, with
`msg` equal to the message argument and no other keys. -/
theorem log_empty_extra_base_only (l : Logger) (s : Severity) (now : Int)
    (message : String) (args : PyVal)
    (h : args = PyVal.none ∨ args = PyVal.dict []) :
    Logger.callSeverity l s now message args =
      Except.ok (Logger.mk l.trace_id l.flows (RpcSender.mk (l.rpc.sent ++
        [RpcCall.mk "log" (l.baseEntry s.methodName now message)]))) := by
  rw [callSeverity_eq_log, log_eq]
  rcases h with h | h <;> subst h <;> rfl

theorem log_empty_extra_base_only_witness :
    (PyVal.none = PyVal.none ∨ PyVal.none = PyVal.dict []) ∧
    Logger.callSeverity (Logger.mk "tid" ["f1"] (RpcSender.mk []))
        Severity.info 3 "hello" PyVal.none =
      Except.ok (Logger.mk "tid" ["f1"] (RpcSender.mk
        [RpcCall.mk "log"
          [("level", PyVal.str "info"), ("time", PyVal.int 3),
           ("traceId", PyVal.str "tid"), ("flows", PyVal.list [PyVal.str "f1"]),
           ("msg", PyVal.str "hello")]])) :=
  ⟨Or.inl rfl, log_empty_extra_base_only (Logger.mk "tid" ["f1"] (RpcSender.mk []))
    Severity.info 3 "hello" PyVal.none (Or.inl rfl)⟩

/-- C10: a present but falsy extra (`0`, `""`, `False`, an empty list)
skips the merge step entirely: the payload is exactly the five base
fields, and in particular no "data" key is added. -/
theorem log_falsy_extra_skips_merge (l : Logger) (s : Severity) (now : Int)
    (message : String) (args : PyVal) (h : truthy args = false) :
    Logger.callSeverity l s now message args =
      Except.ok (Logger.mk l.trace_id l.flows (RpcSender.mk (l.rpc.sent ++
        [RpcCall.mk "log" (l.baseEntry s.methodName now message)]))) := by
  rw [callSeverity_eq_log, log_eq]
  simp [h]

theorem log_falsy_extra_skips_merge_witness :
    truthy (PyVal.int 0) = false ∧
    Logger.callSeverity (Logger.mk "tid" [] (RpcSender.mk []))
        Severity.warn 9 "hi" (PyVal.int 0) =
      Except.ok (Logger.mk "tid" [] (RpcSender.mk
        [RpcCall.mk "log"
          [("level", PyVal.str "warn"), ("time", PyVal.int 9),
           ("traceId", PyVal.str "tid"), ("flows", PyVal.list []),
           ("msg", PyVal.str "hi")]])) :=
  ⟨rfl, log_falsy_extra_skips_merge (Logger.mk "tid" [] (RpcSender.mk []))
    Severity.warn 9 "hi" (PyVal.int 0) rfl⟩

/-- C1: a present, truthy extra value that is neither an attribute-bearing
object nor a mapping is wrapped: the dispatched payload equals the five
base fields plus exactly one additional entry mapping "data" to that
extra value. -/
theorem log_nonmapping_extra_adds_data (l : Logger) (s : Severity) (now : Int)
    (message : String) (args : PyVal) (ht : truthy args = true)
    (ho : args.hasDictAttr = false) (hd : args.isDict = false) :
    Logger.callSeverity l s now message args =
      Except.ok (Logger.mk l.trace_id l.flows (RpcSender.mk (l.rpc.sent ++
        [RpcCall.mk "log"
          (l.baseEntry s.methodName now message ++ [("data", args)])]))) := by
  rw [callSeverity_eq_log, log_eq]
  simp [ht, normEntries, ho, hd, dictUpdate_baseEntry_data]

theorem log_nonmapping_extra_adds_data_witness :
    truthy (PyVal.int 42) = true ∧
    PyVal.hasDictAttr (PyVal.int 42) = false ∧
    PyVal.isDict (PyVal.int 42) = false ∧
    Logger.callSeverity (Logger.mk "tid" ["f1"] (RpcSender.mk []))
        Severity.info 7 "hello" (PyVal.int 42) =
      Except.ok (Logger.mk "tid" ["f1"] (RpcSender.mk
        [RpcCall.mk "log"
          [("level", PyVal.str "info"), ("time", PyVal.int 7),
           ("traceId", PyVal.str "tid"), ("flows", PyVal.list [PyVal.str "f1"]),
           ("msg", PyVal.str "hello"), ("data", PyVal.int 42)]])) :=
  ⟨rfl, rfl, rfl, log_nonmapping_extra_adds_data
    (Logger.mk "tid" ["f1"] (RpcSender.mk [])) Severity.info 7 "hello"
    (PyVal.int 42) rfl rfl rfl⟩

/-- C2: when the extra mapping contains a key colliding with a base field
name (`level`, `time`, `traceId`, `flows` or `msg`), the emitted payload's
value at that key is the extra mapping's value, not the base value: the
merge happens after base-field assignment and overwrites it. -/
theorem log_collision_extra_wins (l : Logger) (s : Severity) (now : Int)
    (message : String) (es : List (String × PyVal)) (k : String) (v : PyVal)
    (hnd : (es.map Prod.fst).Nodup)
    (_hk : k ∈ ["level", "time", "traceId", "flows", "msg"])
    (hv : es.lookup k = some v) :
    ∃ entry, Logger.callSeverity l s now message (PyVal.dict es) =
      Except.ok (Logger.mk l.trace_id l.flows
        (RpcSender.mk (l.rpc.sent ++ [RpcCall.mk "log" entry]))) ∧
      entry.lookup k = some v := by
  rw [callSeverity_eq_log, log_eq]
  have hne : es ≠ [] := by
    intro he
    subst he
    simp at hv
  have ht : truthy (PyVal.dict es) = true := by
    simp [truthy, hne]
  refine ⟨_, rfl, ?_⟩
  simp only [ht, if_true, normEntries_dict]
  exact lookup_dictUpdate_nodup _ _ _ _ hnd hv

theorem log_collision_extra_wins_witness :
    (List.map Prod.fst [("msg", PyVal.str "overridden")]).Nodup ∧
    "msg" ∈ ["level", "time", "traceId", "flows", "msg"] ∧
    List.lookup "msg" [("msg", PyVal.str "overridden")] =
      some (PyVal.str "overridden") ∧
    (∃ entry, Logger.callSeverity (Logger.mk "tid" [] (RpcSender.mk []))
        Severity.info 4 "hello" (PyVal.dict [("msg", PyVal.str "overridden")]) =
      Except.ok (Logger.mk "tid" [] (RpcSender.mk
        (([] : List RpcCall) ++ [RpcCall.mk "log" entry]))) ∧
      entry.lookup "msg" = some (PyVal.str "overridden")) :=
  ⟨by simp, by simp, rfl, log_collision_extra_wins
    (Logger.mk "tid" [] (RpcSender.mk [])) Severity.info 4 "hello"
    [("msg", PyVal.str "overridden")] "msg" (PyVal.str "overridden")
    (by simp) (by simp) rfl⟩

/-- The "level" values of all payloads dispatched in a run. -/
def levelsOf (r : Except String Logger) : List (Option PyVal) :=
  (sentPayloads r).map (fun p => p.lookup "level")

/-- The "traceId" values of all payloads dispatched in a run. -/
def traceIdsOf (r : Except String Logger) : List (Option PyVal) :=
  (sentPayloads r).map (fun p => p.lookup "traceId")

/-- The "time" values of all payloads dispatched in a run. -/
def timesOf (r : Except String Logger) : List (Option PyVal) :=
  (sentPayloads r).map (fun p => p.lookup "time")

/-- C4 counterexample: calling `info` with the extra mapping
`{"level": "loud"}` emits a payload whose "level" field is `"loud"`, not
the method name `"info"`: the merge overwrites the base field, so the
claim fails as universally stated. -/
theorem level_field_counterexample :
    levelsOf (Logger.info (Logger.mk "t" [] (RpcSender.mk [])) 0 "hello"
        (PyVal.dict [("level", PyVal.str "loud")])) =
      [some (PyVal.str "loud")] ∧
    PyVal.str "loud" ≠ PyVal.str "info" :=
  ⟨rfl, by simp⟩

/-- C4 (amended): the dispatched payload's "level" field equals the name
of the method invoked whenever the extra does not itself supply a "level"
key (no extra, any non-mapping extra, any mapping or object without that
key); on a collision the extra's value wins instead. -/
theorem level_matches_method (l : Logger) (s : Severity) (now : Int)
    (message : String) (args : PyVal)
    (h : extraHasKey args "level" = false) :
    ∃ entry, Logger.callSeverity l s now message args =
      Except.ok (Logger.mk l.trace_id l.flows
        (RpcSender.mk (l.rpc.sent ++ [RpcCall.mk "log" entry]))) ∧
      entry.lookup "level" = some (PyVal.str s.methodName) := by
  rw [callSeverity_eq_log, log_eq]
  refine ⟨_, rfl, ?_⟩
  rw [lookup_merged_entry _ _ _ _ _ _ h, baseEntry_lookup_level]

theorem level_matches_method_witness :
    extraHasKey (PyVal.dict [("userId", PyVal.int 42)]) "level" = false ∧
    (∃ entry, Logger.callSeverity (Logger.mk "t" [] (RpcSender.mk []))
        Severity.debug 2 "m" (PyVal.dict [("userId", PyVal.int 42)]) =
      Except.ok (Logger.mk "t" [] (RpcSender.mk
        (([] : List RpcCall) ++ [RpcCall.mk "log" entry]))) ∧
      entry.lookup "level" = some (PyVal.str "debug")) :=
  ⟨rfl, level_matches_method (Logger.mk "t" [] (RpcSender.mk []))
    Severity.debug 2 "m" (PyVal.dict [("userId", PyVal.int 42)]) rfl⟩

/-- C6 counterexample: an extra mapping `{"traceId": "hijack"}` overwrites
the payload's "traceId" field, so the payload field does not equal the
construction-time value on every call, as the claim universally states. -/
theorem traceId_field_counterexample :
    traceIdsOf (Logger.info (Logger.mk "t0" [] (RpcSender.mk [])) 0 "m"
        (PyVal.dict [("traceId", PyVal.str "hijack")])) =
      [some (PyVal.str "hijack")] ∧
    PyVal.str "hijack" ≠ PyVal.str "t0" :=
  ⟨rfl, by simp⟩

/-- C6 (amended): the logger's `trace_id` and `flows` fields are fixed:
no severity call changes them, and the dispatched payload's "traceId" and
"flows" fields equal the construction-time values on every call whose
extra does not itself supply a "traceId" or "flows" key; on a collision
the extra's value wins instead. -/
theorem traceId_flows_fixed (l : Logger) (s : Severity) (now : Int)
    (message : String) (args : PyVal)
    (h1 : extraHasKey args "traceId" = false)
    (h2 : extraHasKey args "flows" = false) :
    ∃ entry, Logger.callSeverity l s now message args =
      Except.ok (Logger.mk l.trace_id l.flows
        (RpcSender.mk (l.rpc.sent ++ [RpcCall.mk "log" entry]))) ∧
      entry.lookup "traceId" = some (PyVal.str l.trace_id) ∧
      entry.lookup "flows" = some (PyVal.list (l.flows.map PyVal.str)) := by
  rw [callSeverity_eq_log, log_eq]
  refine ⟨_, rfl, ?_, ?_⟩
  · rw [lookup_merged_entry _ _ _ _ _ _ h1, baseEntry_lookup_traceId]
  · rw [lookup_merged_entry _ _ _ _ _ _ h2, baseEntry_lookup_flows]

theorem traceId_flows_fixed_witness :
    extraHasKey (PyVal.int 8) "traceId" = false ∧
    extraHasKey (PyVal.int 8) "flows" = false ∧
    (∃ entry, Logger.callSeverity (Logger.mk "tid" ["f1", "f2"]
        (RpcSender.mk [])) Severity.warn 1 "m" (PyVal.int 8) =
      Except.ok (Logger.mk "tid" ["f1", "f2"] (RpcSender.mk
        (([] : List RpcCall) ++ [RpcCall.mk "log" entry]))) ∧
      entry.lookup "traceId" = some (PyVal.str "tid") ∧
      entry.lookup "flows" =
        some (PyVal.list [PyVal.str "f1", PyVal.str "f2"])) :=
  ⟨rfl, rfl, traceId_flows_fixed (Logger.mk "tid" ["f1", "f2"]
    (RpcSender.mk [])) Severity.warn 1 "m" (PyVal.int 8) rfl rfl⟩

/-- Two successive calls on the same logger: clock value 5, then clock
value 10 with the extra mapping `{"time": 0}`. -/
def twoCallsExample : Except String Logger :=
  Except.bind (Logger.info (Logger.mk "t" [] (RpcSender.mk [])) 5 "a" PyVal.none)
    (fun l1 => Logger.info l1 10 "b" (PyVal.dict [("time", PyVal.int 0)]))

/-- C9 counterexample: with non-decreasing clock values 5 ≤ 10 the two
dispatched "time" fields are 5 and then 0 — a decrease — because the
second call's extra mapping overwrites "time"; so the claim fails as
universally stated. -/
theorem time_monotone_counterexample :
    timesOf twoCallsExample = [some (PyVal.int 5), some (PyVal.int 0)] ∧
    (5 : Int) ≤ 10 ∧ ¬ ((5 : Int) ≤ 0) :=
  ⟨rfl, by norm_num, by norm_num⟩

/-- The payload a call dispatches: the base record, merged with the
normalized extra when the extra is truthy. -/
def mergedEntry (l : Logger) (s : Severity) (now : Int) (message : String)
    (args : PyVal) : List (String × PyVal) :=
  if truthy args then
    dictUpdate (l.baseEntry s.methodName now message) (normEntries args)
  else l.baseEntry s.methodName now message

lemma callSeverity_shape (l : Logger) (s : Severity) (now : Int)
    (message : String) (args : PyVal) :
    Logger.callSeverity l s now message args =
      Except.ok (Logger.mk l.trace_id l.flows (RpcSender.mk (l.rpc.sent ++
        [RpcCall.mk "log" (mergedEntry l s now message args)]))) := by
  rw [callSeverity_eq_log, log_eq]
  rfl

lemma lookup_mergedEntry (l : Logger) (s : Severity) (now : Int)
    (message : String) (args : PyVal) (k : String)
    (h : extraHasKey args k = false) :
    (mergedEntry l s now message args).lookup k =
      (l.baseEntry s.methodName now message).lookup k :=
  lookup_merged_entry l now s.methodName message args k h

/-- C9 (amended): across two successive calls on the same instance whose
extras do not supply their own "time" key, each payload's "time" field is
the integer clock value captured at that call, so a non-decreasing clock
gives non-decreasing payload times. -/
theorem time_monotone (l : Logger) (s1 s2 : Severity) (t1 t2 : Int)
    (m1 m2 : String) (a1 a2 : PyVal) (l1 : Logger)
    (h1 : extraHasKey a1 "time" = false)
    (h2 : extraHasKey a2 "time" = false)
    (hc : t1 ≤ t2)
    (e1 : Logger.callSeverity l s1 t1 m1 a1 = Except.ok l1) :
    ∃ l2 p1 p2, Logger.callSeverity l1 s2 t2 m2 a2 = Except.ok l2 ∧
      l2.rpc.sent = l.rpc.sent ++ [p1, p2] ∧
      p1.payload.lookup "time" = some (PyVal.int t1) ∧
      p2.payload.lookup "time" = some (PyVal.int t2) ∧
      t1 ≤ t2 := by
  have hshape := callSeverity_shape l s1 t1 m1 a1
  rw [e1] at hshape
  injection hshape with hl1
  refine ⟨_, RpcCall.mk "log" (mergedEntry l s1 t1 m1 a1),
    RpcCall.mk "log" (mergedEntry l1 s2 t2 m2 a2),
    callSeverity_shape l1 s2 t2 m2 a2, ?_, ?_, ?_, hc⟩
  · rw [hl1]
    simp [List.append_assoc]
  · rw [lookup_mergedEntry _ _ _ _ _ _ h1, baseEntry_lookup_time]
  · rw [lookup_mergedEntry _ _ _ _ _ _ h2, baseEntry_lookup_time]

theorem time_monotone_witness :
    extraHasKey PyVal.none "time" = false ∧
    extraHasKey (PyVal.dict [("u", PyVal.int 1)]) "time" = false ∧
    (5 : Int) ≤ 10 ∧
    Logger.callSeverity (Logger.mk "t" [] (RpcSender.mk [])) Severity.info 5
        "a" PyVal.none =
      Except.ok (Logger.mk "t" [] (RpcSender.mk [RpcCall.mk "log"
        [("level", PyVal.str "info"), ("time", PyVal.int 5),
         ("traceId", PyVal.str "t"), ("flows", PyVal.list []),
         ("msg", PyVal.str "a")]])) ∧
    (∃ l2 p1 p2, Logger.callSeverity (Logger.mk "t" [] (RpcSender.mk
        [RpcCall.mk "log"
          [("level", PyVal.str "info"), ("time", PyVal.int 5),
           ("traceId", PyVal.str "t"), ("flows", PyVal.list []),
           ("msg", PyVal.str "a")]])) Severity.info 10 "b"
        (PyVal.dict [("u", PyVal.int 1)]) = Except.ok l2 ∧
      l2.rpc.sent = (RpcSender.mk ([] : List RpcCall)).sent ++ [p1, p2] ∧
      p1.payload.lookup "time" = some (PyVal.int 5) ∧
      p2.payload.lookup "time" = some (PyVal.int 10) ∧
      (5 : Int) ≤ 10) :=
  ⟨rfl, rfl, by norm_num, rfl,
    time_monotone (Logger.mk "t" [] (RpcSender.mk [])) Severity.info
      Severity.info 5 10 "a" "b" PyVal.none (PyVal.dict [("u", PyVal.int 1)])
      (Logger.mk "t" [] (RpcSender.mk [RpcCall.mk "log"
        [("level", PyVal.str "info"), ("time", PyVal.int 5),
         ("traceId", PyVal.str "t"), ("flows", PyVal.list []),
         ("msg", PyVal.str "a")]]))
      rfl rfl (by norm_num) rfl⟩
